import Mathlib

/-!
Verification of the pset-validation repository: a shallow embedding of the
A4_Utsp property-set validation engine (src/src/validation_rules.py,
src/src/validate_utsparinger.py, src/app.py) together with proofs of the
specified properties.

Python raw values reaching the validators are absent (`None`), strings,
integers or booleans; absence is modelled by `Option`. Python `str.strip()`
is modelled over the ASCII whitespace the domain uses, and the regex
patterns of validation_rules.py are modelled as explicit character-list
matchers.
-/

namespace PsetVal

/-- A raw Python property value as the validators receive it:
a string, an integer, or a boolean. `None` is `Option.none` one level up. -/
inductive PValue where
  | pstr (s : String)
  | pint (n : Int)
  | pbool (b : Bool)
deriving DecidableEq, Repr

/-- Python `str(value)` on the modelled value domain. -/
def pyStr : PValue → String
  | .pstr s => s
  | .pint n => toString n
  | .pbool b => if b then "True" else "False"

/-- Python `str.strip()` (leading/trailing whitespace removed). -/
def pyStrip (s : String) : String :=
  String.mk (((s.toList.dropWhile Char.isWhitespace).reverse.dropWhile Char.isWhitespace).reverse)

/-- The test `value is None or str(value).strip() == ""` used by the validators. -/
def pyIsNoneOrEmpty : Option PValue → Bool
  | none => true
  | some x => pyStrip (pyStr x) == ""

/-- Python `s.split(sep)` for a one-character separator: auxiliary walk. -/
def pySplitAux (sep : Char) : List Char → List Char → List String
  | [], acc => [String.mk acc.reverse]
  | c :: rest, acc =>
    if c = sep then String.mk acc.reverse :: pySplitAux sep rest []
    else pySplitAux sep rest (c :: acc)

/-- Python `s.split(sep)` for a one-character separator (never empty;
`"".split(sep) == [""]`). -/
def pySplit (s : String) (sep : Char) : List String := pySplitAux sep s.toList []

/-- Python `sep.join(xs)`. -/
def pyJoin (sep : String) : List String → String
  | [] => ""
  | [x] => x
  | x :: y :: rest => x ++ sep ++ pyJoin sep (y :: rest)

/-- Tests that the first list is an initial segment of the second. -/
def listIsInit : List Char → List Char → Bool
  | [], _ => true
  | _ :: _, [] => false
  | a :: as, b :: bs => a == b && listIsInit as bs

/-- Python `s.startswith(pre)`. -/
def pyStartsWith (s pre : String) : Bool := listIsInit pre.toList s.toList

/-- Truthiness of an optional string (`if expected_prefix:` in Python):
present and non-empty. -/
def pyTruthyStr : Option String → Bool
  | none => false
  | some s => !(s == "")

/-! ## Python-dict model

The extractor builds `properties` as a Python dict; only insertion
(`d[k] = v`, overwriting in place), lookup (`d.get(k)` / `d[k]`) and
membership (`k in d`) are used. A dict is an association list with unique
keys, kept in insertion order. -/

/-- Association-list dict: insert-or-overwrite, preserving order
(Python `d[k] = v`). -/
def dictInsert {α : Type} : List (String × α) → String → α → List (String × α)
  | [], k, v => [(k, v)]
  | p :: rest, k, v => if p.1 = k then (k, v) :: rest else p :: dictInsert rest k v

/-- Python `d.get(k)` (also `d[k]` for a present key, where a stored `None`
and a missing key both read back as `None` at the `Option PValue` level). -/
def dictGet {α : Type} : List (String × α) → String → Option α
  | [], _ => none
  | p :: rest, k => if p.1 = k then some p.2 else dictGet rest k

/-- Python `k in d`. -/
def dictContains {α : Type} : List (String × α) → String → Bool
  | [], _ => false
  | p :: rest, k => p.1 == k || dictContains rest k

/-- The extractor property map: property name to raw value, where the
stored value may itself be `None` (a property with no nominal value). -/
abbrev PropMap := List (String × Option PValue)

/-- Python `properties.get(name)`, flattening a stored `None` and a missing key
to the same absent value, exactly as the validators observe it. -/
def propGet (d : PropMap) (k : String) : Option PValue :=
  match dictGet d k with
  | some v => v
  | none => none

/-! ## Constants of validation_rules.py -/

def REQUIRED_PSET : String := "A4_Utsp"

def REQUIRED_PROPERTIES : List String :=
  ["A4_Utsp_Kategori", "A4_Utsp_ID", "A4_Utsp_Utsparingstype", "A4_Utsp_Tetting",
   "A4_Utsp_Fase", "A4_Utsp_Status", "A4_Utsp_Rev", "A4_Utsp_RevDato",
   "A4_Utsp_RevBeskrivelse"]

def DIMENSION_PROPERTIES : List String :=
  ["A4_Utsp_DimBredde", "A4_Utsp_DimHøyde", "A4_Utsp_DimDybde", "A4_Utsp_DimDiameter"]

def OPTIONAL_PROPERTIES : List String := ["A4_Utsp_Funksjon"]

def ALL_PROPERTIES : List String :=
  REQUIRED_PROPERTIES ++ DIMENSION_PROPERTIES ++ OPTIONAL_PROPERTIES

def VALID_KATEGORI : List String := ["ProvisionForVoid"]
def VALID_UTSPARINGSTYPE_PREFERRED : List String := ["Utsparing", "Hulltaking"]
def VALID_TETTING_STR : List String := ["Ja", "Nei"]
def VALID_FASE : List String := ["Fase 1", "Fase 2"]
def VALID_STATUS : List String := ["Godkjent", "Ikke godkjent", "Behandles av RIB"]
def VALID_FUNKSJON : List String := ["Bæring", "Vanntetting", "Brann", "Lyd"]

/-! ## Regex models -/

/-- Tests that `c` is an ASCII uppercase letter (the regex class `[A-Z]`). -/
def isUpperAZ (c : Char) : Bool := decide ('A' ≤ c) && decide (c ≤ 'Z')

/-- Matcher for `ID_PATTERN = ^[A-Z]{2,4}_Hull-\d+$`. The letter block is followed by an
underscore, so a match consumes exactly the maximal uppercase run. -/
def matchIdPattern (s : String) : Bool :=
  let cs := s.toList
  let block := cs.takeWhile isUpperAZ
  let rest := cs.drop block.length
  decide (2 ≤ block.length) && decide (block.length ≤ 4) &&
    match rest with
    | '_' :: 'H' :: 'u' :: 'l' :: 'l' :: '-' :: ds => !ds.isEmpty && ds.all Char.isDigit
    | _ => false

/-- Matcher for `DATE_PATTERN = ^\d{2}\.\d{2}\.\d{4}$`. -/
def matchDatePattern (s : String) : Bool :=
  match s.toList with
  | [d1, d2, p1, m1, m2, p2, y1, y2, y3, y4] =>
    d1.isDigit && d2.isDigit && (p1 == '.') && m1.isDigit && m2.isDigit &&
      (p2 == '.') && y1.isDigit && y2.isDigit && y3.isDigit && y4.isDigit
  | _ => false

/-- Matcher for `REV_PATTERN = ^\d+$` (possibly-empty check done by the caller; an empty
string does not match `\d+`). -/
def matchRevPattern (s : String) : Bool :=
  !s.toList.isEmpty && s.toList.all Char.isDigit

/-! ## Numeric fallback of validate_rev

`int(float(value))` on the modelled value domain: an integer is itself, a
boolean is 0/1, and a string is parsed as a decimal literal (optional sign,
digits with an optional fractional part, surrounding whitespace ignored) and
truncated toward zero, which yields the sign-applied integer part. Strings
outside this grammar (and outside Python float extras such as exponents,
`inf` and digit-group underscores, which the data of this repository never uses)
yield `none`, modelling the `ValueError` branch. -/

/-- Decimal digits to the natural number they denote. -/
def digitsToNat (ds : List Char) : Nat :=
  ds.foldl (fun a c => a * 10 + (c.toNat - '0'.toNat)) 0

/-- Python `int(float(s))` for a decimal-literal string, `none` when `float` raises. -/
def pyParseFloatTrunc (s : String) : Option Int :=
  let t := (pyStrip s).toList
  let signed : Bool × List Char :=
    match t with
    | '-' :: rest => (true, rest)
    | '+' :: rest => (false, rest)
    | _ => (false, t)
  let intDigits := signed.2.takeWhile Char.isDigit
  let rest := signed.2.drop intDigits.length
  let wellFormed : Bool :=
    match rest with
    | [] => !intDigits.isEmpty
    | '.' :: fracs => (!intDigits.isEmpty || !fracs.isEmpty) && fracs.all Char.isDigit
    | _ => false
  if wellFormed then
    let n : Int := Int.ofNat (digitsToNat intDigits)
    some (if signed.1 then -n else n)
  else none

/-- Python `int(float(value))` over the modelled value domain (`none` = raises). -/
def pyIntFloat : PValue → Option Int
  | .pstr s => pyParseFloatTrunc s
  | .pint n => some n
  | .pbool b => some (if b then 1 else 0)

/-! ## ValidationResult and the per-property validators
(validation_rules.py lines 63-219) -/

/-- The record `ValidationResult(is_valid, message, severity="error")`. Note the Python
default: a passing result built as `ValidationResult(True, "OK")` carries
severity `"error"`; only `is_valid` distinguishes it. -/
structure ValidationResult where
  is_valid : Bool
  message : String
  severity : String := "error"
deriving DecidableEq, Repr

/-- validation_rules.py `validate_kategori` (lines 82-88). The membership
test uses the unstripped `str(value)`. -/
def validate_kategori : Option PValue → ValidationResult
  | none => ⟨false, "Kategori mangler", "error"⟩
  | some x =>
    if pyStrip (pyStr x) = "" then ⟨false, "Kategori mangler", "error"⟩
    else if VALID_KATEGORI.contains (pyStr x) then ⟨true, "OK", "error"⟩
    else ⟨false, "Ugyldig kategori: \x27" ++ pyStr x ++ "\x27 (forventet: ProvisionForVoid)", "error"⟩

/-- validation_rules.py `validate_id` (lines 91-106). On a structurally valid
ID whose letter block differs from a truthy expected prefix it returns
`ValidationResult(False, ..., "warning")` — is_valid is False. -/
def validate_id (value : Option PValue) (expected_pfx : Option String) : ValidationResult :=
  match value with
  | none => ⟨false, "ID mangler", "error"⟩
  | some x =>
    if pyStrip (pyStr x) = "" then ⟨false, "ID mangler", "error"⟩
    else
      let val_str := pyStrip (pyStr x)
      if !matchIdPattern val_str then
        ⟨false, "Ugyldig ID-format: \x27" ++ val_str ++ "\x27 (forventet: XXX_Hull-nn)", "error"⟩
      else if pyTruthyStr expected_pfx then
        let pfx := (pySplit val_str '_').headD ""
        if pfx ≠ expected_pfx.getD "" then
          ⟨false, "ID-prefiks \x27" ++ pfx ++ "\x27 matcher ikke forventet \x27" ++
            expected_pfx.getD "" ++ "\x27", "warning"⟩
        else ⟨true, "OK", "error"⟩
      else ⟨true, "OK", "error"⟩

/-- app.py `validate_id` (lines 119-129): identical up to messages, except
that the prefix-mismatch branch returns `ValidationResult(True, ..., "warning")`
— is_valid is True there, unlike validation_rules.py. -/
def app_validate_id (value : Option PValue) (expected_pfx : Option String) : ValidationResult :=
  match value with
  | none => ⟨false, "ID mangler", "error"⟩
  | some x =>
    if pyStrip (pyStr x) = "" then ⟨false, "ID mangler", "error"⟩
    else
      let val_str := pyStrip (pyStr x)
      if !matchIdPattern val_str then
        ⟨false, "Ugyldig ID-format: \x27" ++ val_str ++ "\x27", "error"⟩
      else if pyTruthyStr expected_pfx then
        let pfx := (pySplit val_str '_').headD ""
        if pfx ≠ expected_pfx.getD "" then
          ⟨true, "ID-prefiks \x27" ++ pfx ++ "\x27 != \x27" ++ expected_pfx.getD "" ++ "\x27", "warning"⟩
        else ⟨true, "OK", "error"⟩
      else ⟨true, "OK", "error"⟩

/-- validation_rules.py `validate_utsparingstype` (lines 109-119). -/
def validate_utsparingstype : Option PValue → ValidationResult
  | none => ⟨false, "Utsparingstype mangler", "error"⟩
  | some x =>
    if pyStrip (pyStr x) = "" then ⟨false, "Utsparingstype mangler", "error"⟩
    else
      let val_str := pyStrip (pyStr x)
      if VALID_UTSPARINGSTYPE_PREFERRED.contains val_str then ⟨true, "OK", "error"⟩
      else if val_str = "Innstøpningsgods" then
        ⟨true, "Innstøpningsgods skal normalt ikke være i utsparings-IFC", "warning"⟩
      else ⟨false, "Ugyldig utsparingstype: \x27" ++ val_str ++ "\x27", "error"⟩

/-- validation_rules.py `validate_tetting` (lines 122-138): a native boolean
is always OK; a string must be "Ja" or "Nei". -/
def validate_tetting : Option PValue → ValidationResult
  | none => ⟨false, "Tetting mangler", "error"⟩
  | some (.pbool _) => ⟨true, "OK", "error"⟩
  | some x =>
    let val_str := pyStrip (pyStr x)
    if val_str = "" then ⟨false, "Tetting mangler", "error"⟩
    else if VALID_TETTING_STR.contains val_str then ⟨true, "OK", "error"⟩
    else ⟨false, "Ugyldig tetting-verdi: \x27" ++ pyStr x ++ "\x27 (forventet: Ja/Nei eller True/False)", "error"⟩

/-- validation_rules.py `validate_funksjon` (lines 141-154): optional and
multi-valued; always `is_valid=True`. -/
def validate_funksjon : Option PValue → ValidationResult
  | none => ⟨true, "Funksjon ikke angitt (valgfritt)", "info"⟩
  | some x =>
    if pyStrip (pyStr x) = "" then ⟨true, "Funksjon ikke angitt (valgfritt)", "info"⟩
    else
      let val_str := pyStrip (pyStr x)
      let values := (pySplit val_str ',').map pyStrip
      let invalid_values := values.filter (fun v => !(v == "") && !(VALID_FUNKSJON.contains v))
      if !invalid_values.isEmpty then
        ⟨true, "Ukjent funksjon: " ++ pyJoin ", " invalid_values, "warning"⟩
      else ⟨true, "OK", "error"⟩

/-- validation_rules.py `validate_fase` (lines 157-165). -/
def validate_fase : Option PValue → ValidationResult
  | none => ⟨false, "Fase mangler", "error"⟩
  | some x =>
    if pyStrip (pyStr x) = "" then ⟨false, "Fase mangler", "error"⟩
    else
      let val_str := pyStrip (pyStr x)
      if VALID_FASE.contains val_str then ⟨true, "OK", "error"⟩
      else ⟨false, "Ugyldig fase: \x27" ++ val_str ++ "\x27 (forventet: Fase 1 eller Fase 2)", "error"⟩

/-- validation_rules.py `validate_status` (lines 168-176). -/
def validate_status : Option PValue → ValidationResult
  | none => ⟨false, "Status mangler", "error"⟩
  | some x =>
    if pyStrip (pyStr x) = "" then ⟨false, "Status mangler", "error"⟩
    else
      let val_str := pyStrip (pyStr x)
      if VALID_STATUS.contains val_str then ⟨true, "OK", "error"⟩
      else ⟨false, "Ugyldig status: \x27" ++ val_str ++ "\x27", "error"⟩

/-- validation_rules.py `validate_rev` (lines 179-200): digits-regex first,
then the `int(float(value)) >= 0` fallback. -/
def validate_rev : Option PValue → ValidationResult
  | none => ⟨false, "Revisjon mangler", "error"⟩
  | some x =>
    let val_str := pyStrip (pyStr x)
    if val_str = "" then ⟨false, "Revisjon mangler", "error"⟩
    else if matchRevPattern val_str then ⟨true, "OK", "error"⟩
    else
      match pyIntFloat x with
      | some rev_num =>
        if 0 ≤ rev_num then ⟨true, "OK", "error"⟩
        else ⟨false, "Ugyldig revisjonsnummer: \x27" ++ pyStr x ++ "\x27 (forventet: 0, 1, 2, ...)", "error"⟩
      | none => ⟨false, "Ugyldig revisjonsnummer: \x27" ++ pyStr x ++ "\x27 (forventet: 0, 1, 2, ...)", "error"⟩

/-- validation_rules.py `validate_rev_dato` (lines 203-212). -/
def validate_rev_dato : Option PValue → ValidationResult
  | none => ⟨false, "Revisjonsdato mangler", "error"⟩
  | some x =>
    if pyStrip (pyStr x) = "" then ⟨false, "Revisjonsdato mangler", "error"⟩
    else
      let val_str := pyStrip (pyStr x)
      if matchDatePattern val_str then ⟨true, "OK", "error"⟩
      else ⟨false, "Ugyldig datoformat: \x27" ++ val_str ++ "\x27 (forventet: DD.MM.YYYY)", "error"⟩

/-- validation_rules.py `validate_rev_beskrivelse` (lines 215-219). -/
def validate_rev_beskrivelse : Option PValue → ValidationResult
  | none => ⟨false, "Revisjonsbeskrivelse mangler", "error"⟩
  | some x =>
    if pyStrip (pyStr x) = "" then ⟨false, "Revisjonsbeskrivelse mangler", "error"⟩
    else ⟨true, "OK", "error"⟩

/-- The `has_value` helper of `validate_dimensions` (lines 236-240): present,
non-empty after trimming, and not literally "0" or "0.0". -/
def has_value : Option PValue → Bool
  | none => false
  | some v =>
    let val_str := pyStrip (pyStr v)
    !(val_str == "") && !(val_str == "0") && !(val_str == "0.0")

/-- validation_rules.py `validate_dimensions` (lines 222-261). Reads Bredde,
Høyde, Dybde and Diameter; Dybde is bound but never used in the decision. -/
def validate_dimensions (properties : PropMap) : ValidationResult :=
  let bredde := propGet properties "A4_Utsp_DimBredde"
  let hoyde := propGet properties "A4_Utsp_DimHøyde"
  let dybde := propGet properties "A4_Utsp_DimDybde"
  let diameter := propGet properties "A4_Utsp_DimDiameter"
  let has_bredde := has_value bredde
  let has_hoyde := has_value hoyde
  let has_diameter := has_value diameter
  let _unused := dybde
  if has_bredde && has_hoyde then ⟨true, "Rektangulær: Bredde og Høyde angitt", "error"⟩
  else if has_diameter then ⟨true, "Rund: Diameter angitt", "error"⟩
  else if has_bredde && !has_hoyde then ⟨false, "Bredde angitt men Høyde mangler", "error"⟩
  else if has_hoyde && !has_bredde then ⟨false, "Høyde angitt men Bredde mangler", "error"⟩
  else ⟨false, "Dimensjoner mangler (enten Bredde+Høyde eller Diameter)", "error"⟩

/-! ## Element extractor (validate_utsparinger.py `get_element_properties`,
lines 114-161)

The `IsDefinedBy` associations of an element: each is either an
`IfcRelDefinesByProperties` whose `RelatingPropertyDefinition` is an
`IfcPropertySet` (name plus properties), or anything else, which both
`is_a` guards skip. A property either carries a `Name` (and possibly a
`NominalValue`, unwrapped to its primitive) or has no `Name` attribute. -/

/-- One property row of an `IfcPropertySet`: named (with optional unwrapped
nominal value) or lacking a `Name` attribute. -/
inductive IfcProperty where
  | withName (name : String) (nominalValue : Option PValue)
  | unnamed
deriving DecidableEq, Repr

/-- One `IsDefinedBy` association of an element. -/
inductive IfcDefinition where
  | propertySet (psetName : String) (hasProperties : List IfcProperty)
  | otherDefinition
deriving DecidableEq, Repr

/-- The guard `any(prop.Name.startswith("A4_Utsp_") for prop in set if named)`. -/
def propStartsA4 : IfcProperty → Bool
  | .withName n _ => pyStartsWith n "A4_Utsp_"
  | .unnamed => false

/-- The inner extraction loop (lines 150-159): merge the qualifying
properties into the accumulated map, later values overwriting earlier ones. -/
def collectProps (properties : PropMap) (props : List IfcProperty) : PropMap :=
  props.foldl
    (fun d p =>
      match p with
      | .unnamed => d
      | .withName prop_name v =>
        if pyStartsWith prop_name "A4_Utsp_" || ALL_PROPERTIES.contains prop_name then
          dictInsert d prop_name v
        else d)
    properties

/-- The extractor loop state: located pset name, merged property map, and
every pset name seen, in order. -/
structure ExtractState where
  pset_name_found : Option String
  properties : PropMap
  all_pset_names : List String
deriving DecidableEq, Repr

/-- One iteration of the extractor loop (lines 130-159): an exact `A4_Utsp`
name always (re)sets the location; otherwise a set containing an
`A4_Utsp_`-prefixed property records a wrong-location hit only when nothing
was recorded yet. -/
def extractStep (st : ExtractState) (d : IfcDefinition) : ExtractState :=
  match d with
  | .otherDefinition => st
  | .propertySet pset_name props =>
    let all := st.all_pset_names ++ [pset_name]
    let found :=
      if pset_name = REQUIRED_PSET then some REQUIRED_PSET
      else if props.any propStartsA4 then
        match st.pset_name_found with
        | none => some (pset_name ++ " (feil plassering)")
        | some f => some f
      else st.pset_name_found
    ⟨found, collectProps st.properties props, all⟩

/-- validate_utsparinger.py `get_element_properties` (lines 114-161). -/
def get_element_properties (defs : List IfcDefinition) :
    Option String × PropMap × List String :=
  let st := defs.foldl extractStep ⟨none, [], []⟩
  (st.pset_name_found, st.properties, st.all_pset_names)

/-! ## Element validator (validate_utsparinger.py `validate_element`,
lines 164-264) -/

/-- The `PROPERTY_VALIDATORS` mapping (validation_rules.py lines 265-276): the validator
registered for a property name, if any. The registered ID validator is the
no-prefix instance; `validate_element` special-cases the prefixed call. -/
def property_validator_for (name : String) : Option (Option PValue → ValidationResult) :=
  if name = "A4_Utsp_Kategori" then some validate_kategori
  else if name = "A4_Utsp_ID" then some (fun v => validate_id v none)
  else if name = "A4_Utsp_Utsparingstype" then some validate_utsparingstype
  else if name = "A4_Utsp_Tetting" then some validate_tetting
  else if name = "A4_Utsp_Funksjon" then some validate_funksjon
  else if name = "A4_Utsp_Fase" then some validate_fase
  else if name = "A4_Utsp_Status" then some validate_status
  else if name = "A4_Utsp_Rev" then some validate_rev
  else if name = "A4_Utsp_RevDato" then some validate_rev_dato
  else if name = "A4_Utsp_RevBeskrivelse" then some validate_rev_beskrivelse
  else none

/-- The running per-element tally: validation map plus error/warning counts. -/
structure TallyState where
  property_validations : List (String × ValidationResult)
  error_count : Nat
  warning_count : Nat
deriving DecidableEq, Repr

/-- The count update of lines 215-221: a failed error counts as an error, a
warning counts as a warning whether or not it passed. -/
def tallyCounts (err warn : Nat) (result : ValidationResult) : Nat × Nat :=
  if !result.is_valid then
    if result.severity = "error" then (err + 1, warn)
    else if result.severity = "warning" then (err, warn + 1)
    else (err, warn)
  else if result.severity = "warning" then (err, warn + 1)
  else (err, warn)

/-- One iteration of the required-property loop (lines 197-221). -/
def requiredStep (properties : PropMap) (expected_pfx : Option String)
    (st : TallyState) (prop_name : String) : TallyState :=
  let value := propGet properties prop_name
  let result :=
    match property_validator_for prop_name with
    | some validator =>
      if prop_name = "A4_Utsp_ID" then validate_id value expected_pfx
      else validator value
    | none =>
      if pyIsNoneOrEmpty value then ⟨false, "Mangler verdi", "error"⟩
      else ⟨true, "OK", "error"⟩
  let counts := tallyCounts st.error_count st.warning_count result
  ⟨dictInsert st.property_validations prop_name result, counts.1, counts.2⟩

/-- One iteration of the optional-property loop (lines 224-231): validate
only when the key is present; only a warning severity is counted. -/
def optionalStep (properties : PropMap) (st : TallyState) (prop_name : String) : TallyState :=
  if dictContains properties prop_name then
    match property_validator_for prop_name with
    | some validator =>
      let result := validator (propGet properties prop_name)
      ⟨dictInsert st.property_validations prop_name result,
       st.error_count,
       if result.severity = "warning" then st.warning_count + 1 else st.warning_count⟩
    | none => st
  else st

/-- The per-element validation record (validate_utsparinger.py
`ElementValidation`, lines 45-60). -/
structure ElementValidation where
  guid : String
  element_name : String
  element_type : String
  object_type : Option String
  has_pset : Bool
  pset_name_found : Option String
  all_psets : List String
  properties_found : PropMap
  property_validations : List (String × ValidationResult)
  dimension_validation : Option ValidationResult
  overall_status : String
  error_count : Nat
  warning_count : Nat
deriving DecidableEq, Repr

/-- An IFC element as `validate_element` reads it. -/
structure Element where
  globalId : String
  name : Option String
  elemType : String
  objectType : Option String
  isDefinedBy : List IfcDefinition
deriving DecidableEq, Repr

/-- Python `element.Name or "(uten navn)"` — `None` and `""` are both falsy. -/
def pyElementName : Option String → String
  | none => "(uten navn)"
  | some s => if s = "" then "(uten navn)" else s

/-- validate_utsparinger.py `validate_element` (lines 164-264). -/
def validate_element (element : Element) (expected_pfx : Option String) : ElementValidation :=
  let res := get_element_properties element.isDefinedBy
  let pset_name_found := res.1
  let properties := res.2.1
  let all_psets := res.2.2
  let has_pset : Bool := pset_name_found == some REQUIRED_PSET
  if pset_name_found = none then
    { guid := element.globalId
      element_name := pyElementName element.name
      element_type := element.elemType
      object_type := element.objectType
      has_pset := false
      pset_name_found := none
      all_psets := all_psets
      properties_found := []
      property_validations := []
      dimension_validation := none
      overall_status := "Mangler pset"
      error_count := 1
      warning_count := 0 }
  else
    let st1 := REQUIRED_PROPERTIES.foldl (requiredStep properties expected_pfx) ⟨[], 0, 0⟩
    let st2 := OPTIONAL_PROPERTIES.foldl (optionalStep properties) st1
    let dim_result := validate_dimensions properties
    let error_count := if !dim_result.is_valid then st2.error_count + 1 else st2.error_count
    let warning_count :=
      if pyTruthyStr pset_name_found && !(pset_name_found == some REQUIRED_PSET) then
        st2.warning_count + 1
      else st2.warning_count
    let overall_status :=
      if 0 < error_count then "Feil"
      else if 0 < warning_count then "Advarsel"
      else "OK"
    { guid := element.globalId
      element_name := pyElementName element.name
      element_type := element.elemType
      object_type := element.objectType
      has_pset := has_pset
      pset_name_found := pset_name_found
      all_psets := all_psets
      properties_found := properties
      property_validations := st2.property_validations
      dimension_validation := some dim_result
      overall_status := overall_status
      error_count := error_count
      warning_count := warning_count }

/-! ## File summary (validate_utsparinger.py `FileValidation.calculate_summary`,
lines 88-99; identical in app.py lines 94-104) -/

/-- The entries of the summary dict. -/
structure Summary where
  total : Nat
  ok : Nat
  feil : Nat
  advarsel : Nat
  mangler_pset : Nat
  has_pset : Nat
  total_errors : Nat
  total_warnings : Nat
deriving DecidableEq, Repr

/-- The method `FileValidation.calculate_summary`. -/
def calculate_summary (elements : List ElementValidation) : Summary :=
  { total := elements.length
    ok := (elements.filter (fun e => e.overall_status == "OK")).length
    feil := (elements.filter (fun e => e.overall_status == "Feil")).length
    advarsel := (elements.filter (fun e => e.overall_status == "Advarsel")).length
    mangler_pset := (elements.filter (fun e => e.overall_status == "Mangler pset")).length
    has_pset := (elements.filter (fun e => e.has_pset)).length
    total_errors := (elements.map (fun e => e.error_count)).sum
    total_warnings := (elements.map (fun e => e.warning_count)).sum }

/-! ## Claim-side characterizations -/

/-- Specification-side dimension decision (spec §4.2): first-match-wins over
the three "has value" flags; depth is not an input at all. -/
def dimensionsSpec (w h d : Bool) : ValidationResult :=
  if w && h then ⟨true, "Rektangulær: Bredde og Høyde angitt", "error"⟩
  else if d then ⟨true, "Rund: Diameter angitt", "error"⟩
  else if w then ⟨false, "Bredde angitt men Høyde mangler", "error"⟩
  else if h then ⟨false, "Høyde angitt men Bredde mangler", "error"⟩
  else ⟨false, "Dimensjoner mangler (enten Bredde+Høyde eller Diameter)", "error"⟩

/-- Some association on the element is a property set named exactly `A4_Utsp`
(spec-side, order-independent). -/
def hasExactPset : List IfcDefinition → Bool
  | [] => false
  | .propertySet n _ :: rest => (n == REQUIRED_PSET) || hasExactPset rest
  | .otherDefinition :: rest => hasExactPset rest

/-- The first property set containing an `A4_Utsp_`-prefixed property
(spec-side description of the fuzzy tier). -/
def firstFuzzyPset : List IfcDefinition → Option String
  | [] => none
  | .propertySet n ps :: rest =>
    if ps.any propStartsA4 then some n else firstFuzzyPset rest
  | .otherDefinition :: rest => firstFuzzyPset rest

/-- All property-set names of the element, in association order (spec-side). -/
def allPsetNames : List IfcDefinition → List String
  | [] => []
  | .propertySet n _ :: rest => n :: allPsetNames rest
  | .otherDefinition :: rest => allPsetNames rest

/-- The unknown Funksjon tokens, as the claim describes them: the trimmed
comma-separated tokens of the trimmed value that are non-empty and not in
`VALID_FUNKSJON`. -/
def unknownTokens (s : String) : List String :=
  ((pySplit (pyStrip s) ',').map pyStrip).filter
    (fun v => !(v == "") && !(VALID_FUNKSJON.contains v))

/-! ## Temporary-file lifecycle model (app.py `validate_ifc_file` lines
372-394 and `create_validated_ifc` lines 428-564)

The file system is the list of existing temp-file paths; the external
`ifcopenshell.open` either succeeds or raises, modelled by a flag. Both
functions write the uploaded bytes to a `NamedTemporaryFile(delete=False)`
and call `Path(tmp_path).unlink()` only at the end of the function body —
there is no `try/finally` — so an exception from the open/validate/export
steps propagates before any unlink runs. -/

/-- The modelled file-system state: existing temporary paths. -/
abbrev FsState := List String

/-- Python `tempfile.NamedTemporaryFile(delete=False)` + `tmp.write(...)`. -/
def writeTempFile (st : FsState) (path : String) : FsState := st ++ [path]

/-- Python `Path(path).unlink()`. -/
def unlinkFile (st : FsState) (path : String) : FsState :=
  st.filter (fun p => !(p == path))

/-- app.py `validate_ifc_file` (lines 372-394) as its file-system effects:
write temp file; open the model (raises when the bytes are not parseable
IFC, propagating); on success validate and finally unlink the temp file. -/
def validate_ifc_file_fs (openRaises : Bool) (st : FsState) :
    Except String Unit × FsState :=
  let st1 := writeTempFile st "tmp.ifc"
  if openRaises then (Except.error "ifcopenshell.open raised", st1)
  else (Except.ok (), unlinkFile st1 "tmp.ifc")

/-- app.py `create_validated_ifc` (lines 428-564) as its file-system
effects: write temp file; open the model (may raise); on success write the
annotated copy, read it back, then unlink both paths (lines 561-562). -/
def create_validated_ifc_fs (openRaises : Bool) (st : FsState) :
    Except String Unit × FsState :=
  let st1 := writeTempFile st "tmp.ifc"
  if openRaises then (Except.error "ifcopenshell.open raised", st1)
  else
    let st2 := writeTempFile st1 "tmp_validert.ifc"
    (Except.ok (), unlinkFile (unlinkFile st2 "tmp.ifc") "tmp_validert.ifc")

/-! ## Concrete elements used as evaluation inputs -/

/-- Element A of the spec §8 end-to-end scenario: a correct `A4_Utsp` set. -/
def elemA : Element :=
  { globalId := "2O2Fr$t4X7Zf8NOew3FLOH"
    name := some "Utsparing vegg"
    elemType := "IfcBuildingElementProxy"
    objectType := some "ProvisionForVoid"
    isDefinedBy :=
      [.propertySet "A4_Utsp"
        [.withName "A4_Utsp_Kategori" (some (.pstr "ProvisionForVoid")),
         .withName "A4_Utsp_ID" (some (.pstr "RIV_Hull-1")),
         .withName "A4_Utsp_Utsparingstype" (some (.pstr "Utsparing")),
         .withName "A4_Utsp_Tetting" (some (.pstr "Ja")),
         .withName "A4_Utsp_Fase" (some (.pstr "Fase 1")),
         .withName "A4_Utsp_Status" (some (.pstr "Godkjent")),
         .withName "A4_Utsp_Rev" (some (.pint 0)),
         .withName "A4_Utsp_RevDato" (some (.pstr "01.01.2024")),
         .withName "A4_Utsp_RevBeskrivelse" (some (.pstr "Initial")),
         .withName "A4_Utsp_DimBredde" (some (.pint 200)),
         .withName "A4_Utsp_DimHøyde" (some (.pint 300))]] }

/-- Element B of the spec §8 scenario: no property sets at all. -/
def elemB : Element :=
  { globalId := "1kTvXnbbzCWw8lcMd1dR4o"
    name := none
    elemType := "IfcBuildingElementProxy"
    objectType := none
    isDefinedBy := [] }

/-- An element whose `A4_Utsp_` properties sit in a differently named set. -/
def elemC : Element :=
  { globalId := "0C8qJspnv1fO1gJJMGXxOp"
    name := some "Utsparing dekke"
    elemType := "IfcBuildingElementProxy"
    objectType := some "ProvisionForVoid"
    isDefinedBy :=
      [.propertySet "Pset_Custom"
        [.withName "A4_Utsp_Kategori" (some (.pstr "ProvisionForVoid")),
         .withName "A4_Utsp_ID" (some (.pstr "RIV_Hull-2")),
         .withName "A4_Utsp_Utsparingstype" (some (.pstr "Hulltaking")),
         .withName "A4_Utsp_Tetting" (some (.pbool true)),
         .withName "A4_Utsp_Fase" (some (.pstr "Fase 2")),
         .withName "A4_Utsp_Status" (some (.pstr "Godkjent")),
         .withName "A4_Utsp_Rev" (some (.pstr "1")),
         .withName "A4_Utsp_RevDato" (some (.pstr "02.01.2024")),
         .withName "A4_Utsp_RevBeskrivelse" (some (.pstr "Rev 1")),
         .withName "A4_Utsp_DimDiameter" (some (.pint 110))]] }

/-! ## Theorems -/

/-- C2: the claim states that a pattern-valid ID whose letter prefix differs
from a truthy expected prefix yields `passed = true` with severity `warning`.
the `validate_id` of validation_rules.py (the copy `validate_element` imports)
returns `is_valid = False` with severity `warning` on exactly that input,
while the app.py copy returns `is_valid = True`: the two copies of the
validator contradict each other, and only app.py matches the specification. -/
theorem validate_id_mismatch_divergence :
    matchIdPattern "RIE_Hull-1" = true ∧
    (validate_id (some (.pstr "RIE_Hull-1")) (some "RIV")).is_valid = false ∧
    (validate_id (some (.pstr "RIE_Hull-1")) (some "RIV")).severity = "warning" ∧
    (app_validate_id (some (.pstr "RIE_Hull-1")) (some "RIV")).is_valid = true ∧
    (app_validate_id (some (.pstr "RIE_Hull-1")) (some "RIV")).severity = "warning" := by
  decide

/-- C9: with the uploaded bytes unparseable (`ifcopenshell.open` raises), the
temporary decoded copy written by the app.py functions `validate_ifc_file` and
`create_validated_ifc` is still present after the call — the unlink calls
run only on the success path, on which the temp files are indeed removed. -/
theorem temp_file_survives_exception :
    (validate_ifc_file_fs true []).1 = Except.error "ifcopenshell.open raised" ∧
    (validate_ifc_file_fs true []).2 = ["tmp.ifc"] ∧
    (create_validated_ifc_fs true []).2 = ["tmp.ifc"] ∧
    (validate_ifc_file_fs false []).2 = [] ∧
    (create_validated_ifc_fs false []).2 = [] :=
  ⟨rfl, rfl, rfl, rfl, rfl⟩

/-- C4: the dimension checker decides by first-match-wins over the three
"has value" flags of width, height and diameter — agreeing with the
decision list of the specification — and the stored depth value never affects
the result. -/
theorem dimensions_decision (properties : PropMap) :
    validate_dimensions properties =
      dimensionsSpec (has_value (propGet properties "A4_Utsp_DimBredde"))
        (has_value (propGet properties "A4_Utsp_DimHøyde"))
        (has_value (propGet properties "A4_Utsp_DimDiameter")) ∧
    ∀ v, validate_dimensions (dictInsert properties "A4_Utsp_DimDybde" v) =
      validate_dimensions properties := by
  constructor
  · simp only [validate_dimensions, dimensionsSpec]
    cases hb : has_value (propGet properties "A4_Utsp_DimBredde") <;>
      cases hh : has_value (propGet properties "A4_Utsp_DimHøyde") <;>
        cases hd : has_value (propGet properties "A4_Utsp_DimDiameter") <;> simp
  · intro v
    have hget : ∀ k, k ≠ "A4_Utsp_DimDybde" →
        propGet (dictInsert properties "A4_Utsp_DimDybde" v) k = propGet properties k := by
      intro k hk
      simp only [propGet]
      have : dictGet (dictInsert properties "A4_Utsp_DimDybde" v) k = dictGet properties k := by
        induction properties with
        | nil => simp [dictInsert, dictGet, Ne.symm hk]
        | cons p rest ih =>
          by_cases hp : p.1 = "A4_Utsp_DimDybde"
          · simp [dictInsert, dictGet, hp, Ne.symm hk]
          · simp only [dictInsert, dictGet, hp, if_neg hp]
            split <;> simp [ih]
      rw [this]
    simp only [validate_dimensions]
    rw [hget _ (by decide), hget _ (by decide), hget _ (by decide)]

/-- Shape of `validate_funksjon` on a non-empty value, stated through the
token list `unknownTokens`. -/
theorem validate_funksjon_some (x : PValue) (h : pyStrip (pyStr x) ≠ "") :
    validate_funksjon (some x) =
      if unknownTokens (pyStr x) = [] then ⟨true, "OK", "error"⟩
      else ⟨true, "Ukjent funksjon: " ++ pyJoin ", " (unknownTokens (pyStr x)), "warning"⟩ := by
  simp only [validate_funksjon, unknownTokens, if_neg h]
  by_cases hl : ((pySplit (pyStrip (pyStr x)) ',').map pyStrip).filter
      (fun v => !(v == "") && !(VALID_FUNKSJON.contains v)) = []
  · rw [if_pos hl, hl]
    rfl
  · rw [if_neg hl]
    cases hc : ((pySplit (pyStrip (pyStr x)) ',').map pyStrip).filter
        (fun v => !(v == "") && !(VALID_FUNKSJON.contains v)) with
    | nil => exact absurd hc hl
    | cons a as => rfl

/-- C8: the Funksjon validator always passes — severity `info` on an absent
or empty value, severity `warning` (listing the unknown tokens) when some
trimmed comma-separated token is non-empty and outside `VALID_FUNKSJON`,
and the plain `OK` outcome otherwise. -/
theorem funksjon_never_error (value : Option PValue) :
    (validate_funksjon value).is_valid = true ∧
    (pyIsNoneOrEmpty value = true →
      validate_funksjon value = ⟨true, "Funksjon ikke angitt (valgfritt)", "info"⟩) ∧
    (∀ x, value = some x → pyIsNoneOrEmpty value = false →
      (unknownTokens (pyStr x) ≠ [] →
        (validate_funksjon value).severity = "warning" ∧
        (validate_funksjon value).message =
          "Ukjent funksjon: " ++ pyJoin ", " (unknownTokens (pyStr x))) ∧
      (unknownTokens (pyStr x) = [] →
        validate_funksjon value = ⟨true, "OK", "error"⟩)) := by
  refine ⟨?_, ?_, ?_⟩
  · cases value with
    | none => rfl
    | some x =>
      by_cases h : pyStrip (pyStr x) = ""
      · simp [validate_funksjon, h]
      · rw [validate_funksjon_some x h]
        split <;> rfl
  · intro h
    cases value with
    | none => rfl
    | some x =>
      have h' : pyStrip (pyStr x) = "" := by simpa [pyIsNoneOrEmpty] using h
      simp [validate_funksjon, h']
  · intro x hx hne
    subst hx
    have h' : pyStrip (pyStr x) ≠ "" := by simpa [pyIsNoneOrEmpty] using hne
    rw [validate_funksjon_some x h']
    constructor
    · intro hult
      rw [if_neg hult]
      exact ⟨rfl, rfl⟩
    · intro hnil
      rw [if_pos hnil]

/-- Witness for C8 at `"Brann, Magi"`: a non-empty value with the unknown
token `Magi` yields a passing warning naming it. -/
theorem funksjon_never_error_witness :
    (validate_funksjon (some (.pstr "Brann, Magi"))).is_valid = true ∧
    (validate_funksjon (some (.pstr "Brann, Magi"))).severity = "warning" ∧
    (validate_funksjon (some (.pstr "Brann, Magi"))).message = "Ukjent funksjon: Magi" := by
  have h := funksjon_never_error (some (.pstr "Brann, Magi"))
  refine ⟨h.1, ?_, ?_⟩
  · exact ((h.2.2 _ rfl (by decide)).1 (by decide)).1
  · have := ((h.2.2 _ rfl (by decide)).1 (by decide)).2
    rw [this]
    decide

/-- C7: the revision validator accepts exactly the present, non-blank values
whose trimmed string is all digits or whose `int(float(value))` truncation
is non-negative; `"-1"` fails the digits pattern, parses to `-1 < 0` on the
numeric path, and is rejected with an error; absent and blank values are
errors. -/
theorem rev_accepts_iff (value : Option PValue) :
    ((validate_rev value).is_valid = true ↔
      ∃ x, value = some x ∧ pyStrip (pyStr x) ≠ "" ∧
        (matchRevPattern (pyStrip (pyStr x)) = true ∨
         ∃ n : Int, pyIntFloat x = some n ∧ 0 ≤ n)) ∧
    (validate_rev (some (.pstr "-1"))).is_valid = false ∧
    (validate_rev (some (.pstr "-1"))).severity = "error" ∧
    matchRevPattern "-1" = false ∧
    pyIntFloat (.pstr "-1") = some (-1) ∧
    validate_rev none = ⟨false, "Revisjon mangler", "error"⟩ ∧
    validate_rev (some (.pstr " ")) = ⟨false, "Revisjon mangler", "error"⟩ := by
  refine ⟨?_, by decide, by decide, by decide, by decide, by decide, by decide⟩
  cases value with
  | none => simp [validate_rev]
  | some x =>
    simp only [validate_rev]
    by_cases h1 : pyStrip (pyStr x) = ""
    · simp [h1]
    · by_cases h2 : matchRevPattern (pyStrip (pyStr x)) = true
      · simp [h1, h2]
      · cases h3 : pyIntFloat x with
        | none => simp [h1, h2, h3]
        | some n =>
          by_cases h4 : (0 : Int) ≤ n
          · simp [h1, h2, h3, h4]
          · simp [h1, h2, h3, h4]

/-- Witness for C7 at `"3.0"`: accepted through the numeric fallback. -/
theorem rev_accepts_iff_witness :
    (validate_rev (some (.pstr "3.0"))).is_valid = true ∧
    (validate_rev (some (.pstr "-1"))).is_valid = false :=
  ⟨(rev_accepts_iff (some (.pstr "3.0"))).1.mpr
      ⟨.pstr "3.0", rfl, by decide, Or.inr ⟨3, by decide, by decide⟩⟩,
   (rev_accepts_iff (some (.pstr "-1"))).2.1⟩

/-- The extractor loop collects every property-set name, appended in order,
from any starting state. -/
theorem extract_foldl_all (defs : List IfcDefinition) (st : ExtractState) :
    (defs.foldl extractStep st).all_pset_names = st.all_pset_names ++ allPsetNames defs := by
  induction defs generalizing st with
  | nil => simp [allPsetNames]
  | cons d rest ih =>
    cases d with
    | otherDefinition => simpa [extractStep, allPsetNames] using ih st
    | propertySet n ps =>
      rw [List.foldl_cons, ih]
      simp [extractStep, allPsetNames]

/-- The located-pset component of the extractor loop, from any starting
state: an exact `A4_Utsp` name anywhere wins; otherwise an already-recorded
location is kept; otherwise the first fuzzy hit is recorded annotated. -/
theorem extract_foldl_found (defs : List IfcDefinition) (st : ExtractState) :
    (defs.foldl extractStep st).pset_name_found =
      if hasExactPset defs then some REQUIRED_PSET
      else
        match st.pset_name_found with
        | some f => some f
        | none => (firstFuzzyPset defs).map (fun nm => nm ++ " (feil plassering)") := by
  induction defs generalizing st with
  | nil => cases hsf : st.pset_name_found <;> simp [hasExactPset, firstFuzzyPset, hsf]
  | cons d rest ih =>
    cases d with
    | otherDefinition =>
      cases hsf : st.pset_name_found <;>
        simpa [extractStep, hasExactPset, firstFuzzyPset, hsf] using ih st
    | propertySet n ps =>
      rw [List.foldl_cons, ih]
      by_cases hn : n = REQUIRED_PSET
      · simp [extractStep, hasExactPset, hn]
      · by_cases hf : ps.any propStartsA4
        · cases hsf : st.pset_name_found <;>
            simp [extractStep, hasExactPset, firstFuzzyPset, hn, hf, hsf]
        · cases hsf : st.pset_name_found <;>
            simp [extractStep, hasExactPset, firstFuzzyPset, hn, hf, hsf]

/-- C6: an exact `A4_Utsp` association anywhere on the element is recorded
as the location, irrespective of its position relative to fuzzy matches; a
fuzzy match (first one, annotated "(feil plassering)") is recorded only when
no association has the exact name; and all property-set names are collected
either way. -/
theorem extractor_two_tier (defs : List IfcDefinition) :
    (get_element_properties defs).1 =
      (if hasExactPset defs then some "A4_Utsp"
       else (firstFuzzyPset defs).map (fun nm => nm ++ " (feil plassering)")) ∧
    (get_element_properties defs).2.2 = allPsetNames defs := by
  constructor
  · have h := extract_foldl_found defs ⟨none, [], []⟩
    simpa [get_element_properties, REQUIRED_PSET] using h
  · simpa [get_element_properties] using extract_foldl_all defs ⟨none, [], []⟩

/-- Every element status produced by `validate_element` is one of the four
summary statuses. -/
theorem overall_status_cases (element : Element) (expected_pfx : Option String) :
    (validate_element element expected_pfx).overall_status = "OK" ∨
    (validate_element element expected_pfx).overall_status = "Feil" ∨
    (validate_element element expected_pfx).overall_status = "Advarsel" ∨
    (validate_element element expected_pfx).overall_status = "Mangler pset" := by
  simp only [validate_element]
  split
  · simp
  · simp only []
    split_ifs <;> simp

/-- C1: `Mangler pset` exactly when the extractor located no property set at
all; otherwise the status is derived from the counts — `Feil` iff the error
count is positive, else `Advarsel` iff the warning count is positive, else
`OK`. -/
theorem overall_status_policy (element : Element) (expected_pfx : Option String) :
    ((validate_element element expected_pfx).overall_status = "Mangler pset" ↔
      (get_element_properties element.isDefinedBy).1 = none) ∧
    ((get_element_properties element.isDefinedBy).1 ≠ none →
      (validate_element element expected_pfx).overall_status =
        (if 0 < (validate_element element expected_pfx).error_count then "Feil"
         else if 0 < (validate_element element expected_pfx).warning_count then "Advarsel"
         else "OK")) := by
  cases h : (get_element_properties element.isDefinedBy).1 with
  | none =>
    constructor
    · simp [validate_element, h]
    · intro hne
      exact absurd rfl hne
  | some nm =>
    constructor
    · simp only [validate_element, h]
      rw [if_neg (by simp)]
      simp only []
      constructor
      · intro hst
        split_ifs at hst <;> simp_all
      · intro hn
        cases hn
    · intro _
      simp only [validate_element, h]
      rw [if_neg (by simp)]

/-- C3: an element on which the extractor locates no property set at all
returns immediately: status `Mangler pset`, one error, no warnings, an empty
validation map and no dimension outcome. -/
theorem missing_pset_shortcircuit (element : Element) (expected_pfx : Option String)
    (h : (get_element_properties element.isDefinedBy).1 = none) :
    validate_element element expected_pfx =
      { guid := element.globalId
        element_name := pyElementName element.name
        element_type := element.elemType
        object_type := element.objectType
        has_pset := false
        pset_name_found := none
        all_psets := (get_element_properties element.isDefinedBy).2.2
        properties_found := []
        property_validations := []
        dimension_validation := none
        overall_status := "Mangler pset"
        error_count := 1
        warning_count := 0 } := by
  simp [validate_element, h]

/-- Witness for C3 at the concrete pset-less element `elemB`. -/
theorem missing_pset_shortcircuit_witness :
    validate_element elemB none =
      { guid := "1kTvXnbbzCWw8lcMd1dR4o"
        element_name := "(uten navn)"
        element_type := "IfcBuildingElementProxy"
        object_type := none
        has_pset := false
        pset_name_found := none
        all_psets := []
        properties_found := []
        property_validations := []
        dimension_validation := none
        overall_status := "Mangler pset"
        error_count := 1
        warning_count := 0 } := by
  rw [missing_pset_shortcircuit elemB none (by decide)]
  decide

/-- C10: `has_pset` holds exactly when the located set is named `A4_Utsp`;
a wrong-location element has `has_pset = false`, contributes nothing to the
summary count `has_pset`, yet is fully validated (status OK/Feil/Advarsel,
never `Mangler pset`). -/
theorem has_pset_exact_only (element : Element) (expected_pfx : Option String) :
    ((validate_element element expected_pfx).has_pset = true ↔
      (validate_element element expected_pfx).pset_name_found = some "A4_Utsp") ∧
    (∀ nm, (get_element_properties element.isDefinedBy).1 = some nm → nm ≠ "A4_Utsp" →
      (validate_element element expected_pfx).has_pset = false ∧
      (validate_element element expected_pfx).overall_status ≠ "Mangler pset" ∧
      ((validate_element element expected_pfx).overall_status = "OK" ∨
       (validate_element element expected_pfx).overall_status = "Feil" ∨
       (validate_element element expected_pfx).overall_status = "Advarsel") ∧
      (calculate_summary [validate_element element expected_pfx]).has_pset = 0) := by
  cases h : (get_element_properties element.isDefinedBy).1 with
  | none =>
    constructor
    · simp [validate_element, h]
    · intro nm hnm
      cases hnm
  | some loc =>
    constructor
    · simp only [validate_element, h]
      rw [if_neg (by simp)]
      simp [REQUIRED_PSET, beq_iff_eq]
    · intro nm hnm hneq
      injection hnm with hloc
      subst hloc
      have hp : (validate_element element expected_pfx).has_pset = false := by
        simp only [validate_element, h]
        rw [if_neg (by simp)]
        simp [REQUIRED_PSET, beq_iff_eq, hneq]
      refine ⟨hp, ?_, ?_, ?_⟩
      · simp only [validate_element, h]
        rw [if_neg (by simp)]
        simp only []
        split_ifs <;> simp
      · simp only [validate_element, h]
        rw [if_neg (by simp)]
        simp only []
        split_ifs <;> simp
      · simp [calculate_summary, hp]

/-- The four statuses partition any element list on which every status is
one of the four. -/
theorem summary_partition_aux (l : List ElementValidation)
    (h : ∀ e ∈ l, e.overall_status = "OK" ∨ e.overall_status = "Feil" ∨
      e.overall_status = "Advarsel" ∨ e.overall_status = "Mangler pset") :
    (l.filter (fun e => e.overall_status == "OK")).length +
    (l.filter (fun e => e.overall_status == "Feil")).length +
    (l.filter (fun e => e.overall_status == "Advarsel")).length +
    (l.filter (fun e => e.overall_status == "Mangler pset")).length = l.length := by
  induction l with
  | nil => rfl
  | cons e rest ih =>
    have he := h e (List.mem_cons_self _ _)
    have hr := ih (fun x hx => h x (List.mem_cons_of_mem _ hx))
    rcases he with h1 | h1 | h1 | h1 <;>
      simp [List.filter_cons, h1] <;> omega

/-- C5: the summary counts of a validation run partition the element
sequence — ok + feil + advarsel + mangler_pset equals the total, which is
the number of validated elements. -/
theorem summary_is_partition (inputs : List (Element × Option String)) :
    (calculate_summary (inputs.map (fun p => validate_element p.1 p.2))).ok +
    (calculate_summary (inputs.map (fun p => validate_element p.1 p.2))).feil +
    (calculate_summary (inputs.map (fun p => validate_element p.1 p.2))).advarsel +
    (calculate_summary (inputs.map (fun p => validate_element p.1 p.2))).mangler_pset =
    (calculate_summary (inputs.map (fun p => validate_element p.1 p.2))).total ∧
    (calculate_summary (inputs.map (fun p => validate_element p.1 p.2))).total =
      inputs.length := by
  constructor
  · have h : ∀ e ∈ inputs.map (fun p => validate_element p.1 p.2),
        e.overall_status = "OK" ∨ e.overall_status = "Feil" ∨
        e.overall_status = "Advarsel" ∨ e.overall_status = "Mangler pset" := by
      intro e he
      rcases List.mem_map.mp he with ⟨p, _, rfl⟩
      exact overall_status_cases p.1 p.2
    simpa [calculate_summary] using summary_partition_aux _ h
  · simp [calculate_summary]

end PsetVal
